import Mathlib

/-!
Verification of the HIMicroPythonGenerator marshalling layer
(src/include/HIMicroPythonGenerator.h) against its specification.

The header is a template library bridging native C++ values and the
MicroPython object model.  We shallowly embed it:

* `MpObj V` models the engine handle type `mp_obj_t`.  The engine's boxing
  constructors and predicates (`mp_obj_new_int`, `mp_obj_is_int`, ...) are
  external collaborators (spec section 6); we model them as exact
  constructors/destructors of the corresponding payloads.  `V` is the native
  payload type of an opaque wrapped object.
* Strings are byte lists (`List Nat`); the byte `0` is the C `NUL`
  terminator, and `cstr` models reading a buffer through C-string functions
  (`strcmp`, `strlen`, `std::string(const char*)`), which stop at the first
  `NUL`.
* Native storage addresses are `Addr`; a heap `Addr → V` gives pointer and
  reference dereference.  A C++ pointer/reference argument is modelled as
  the address it designates, a by-value argument as the value itself.
* Each `HIPyType` specialization becomes a namespace with `Is`/`From`/`To`
  definitions translated clause by clause from the header.
-/

namespace HelMicroPython

/-- Address of a piece of native storage (models a C++ pointer target). -/
abbrev Addr := Nat

/-- Stand-in carrier for the engine's `mp_float_t`.  The marshalling layer
never computes with the float payload, it only stores and retrieves it, so
any carrier with decidable equality is faithful; we use `ℚ`. -/
abbrev MpFloat := Rat

/-- The storage slot `Value` of a `HIPythonObjectType` wrapper
(`struct HIPythonObjectType { TType Value; }`).  The constructor records
whether `PyWrapper::Type` is a pointer (`ptrStore`) or a plain value
(`valStore`); the header selects behavior on exactly this compile-time
distinction (`std::is_pointer_v<typename PyWrapper::Type>`). -/
inductive WStorage (V : Type) where
  | ptrStore (a : Addr)
  | valStore (v : V)
deriving DecidableEq

/-- Model of the engine handle `mp_obj_t`.  Constructors follow the engine
object kinds the header interacts with: boxed ints, floats, bools, strings,
interned symbols (qstr), `mp_const_none`, the reserved `MP_OBJ_SENTINEL`,
and opaque wrapper objects carrying the address of their `mp_obj_type_t`
descriptor (`typeId`) plus their storage slot. -/
inductive MpObj (V : Type) where
  | intObj (n : Int)
  | floatObj (x : MpFloat)
  | boolObj (b : Bool)
  | strObj (bytes : List Nat)
  | qstrObj (name : List Nat)
  | noneObj
  | sentinel
  | wrapperObj (typeId : Nat) (st : WStorage V)
deriving DecidableEq

/-- Reading a byte buffer through a C-string function: everything up to
(excluding) the first `NUL` byte. -/
def cstr (l : List Nat) : List Nat := l.takeWhile (· ≠ 0)

section Engine
variable {V : Type}

/-! ### Models of the engine primitives consumed from `py/obj.h` (spec §6) -/

/-- Engine model: `mp_obj_new_int` boxes an integer. -/
def mp_obj_new_int (n : Int) : MpObj V := .intObj n

/-- Engine model: `mp_obj_is_int` — true exactly on boxed integers
(bools are a separate type in the engine). -/
def mp_obj_is_int : MpObj V → Bool
  | .intObj _ => true
  | _ => false

/-- Engine model: `mp_obj_get_int` — unboxes an integer; also accepts the
bool singletons (0/1); raises a `TypeError` (here: `none`) otherwise. -/
def mp_obj_get_int : MpObj V → Option Int
  | .intObj n => some n
  | .boolObj b => some (if b then 1 else 0)
  | _ => none

/-- Engine model: `mp_obj_new_float` boxes a float. -/
def mp_obj_new_float (x : MpFloat) : MpObj V := .floatObj x

/-- Engine model: `mp_obj_is_float`. -/
def mp_obj_is_float : MpObj V → Bool
  | .floatObj _ => true
  | _ => false

/-- Engine model: `mp_obj_get_float` — unboxes a float; also accepts ints
and bools by conversion; raises (here: `none`) otherwise. -/
def mp_obj_get_float : MpObj V → Option MpFloat
  | .floatObj x => some x
  | .intObj n => some (n : MpFloat)
  | .boolObj b => some (if b then 1 else 0)
  | _ => none

/-- Engine model: `mp_obj_new_bool`. -/
def mp_obj_new_bool (b : Bool) : MpObj V := .boolObj b

/-- Engine model: `mp_obj_is_bool`. -/
def mp_obj_is_bool : MpObj V → Bool
  | .boolObj _ => true
  | _ => false

/-- Engine model: `mp_obj_is_true` — the engine's truthiness test, total
over every handle: bools are themselves, `none` is false, numbers compare
to zero, strings by non-emptiness, and any other object defaults to true. -/
def mp_obj_is_true : MpObj V → Bool
  | .boolObj b => b
  | .noneObj => false
  | .intObj n => decide (n ≠ 0)
  | .floatObj x => decide (x ≠ 0)
  | .strObj s => decide (s ≠ [])
  | .qstrObj s => decide (s ≠ [])
  | .sentinel => true
  | .wrapperObj _ _ => true

/-- Engine model: `mp_obj_new_str data len` copies `len` bytes from the
buffer `data` into a fresh string object (length-explicit, so embedded
`NUL` bytes inside the first `len` bytes are stored). -/
def mp_obj_new_str (data : List Nat) (len : Nat) : MpObj V :=
  .strObj (data.take len)

/-- Engine model: `mp_obj_is_str` — true on string objects and interned
symbols (qstr-encoded strings). -/
def mp_obj_is_str : MpObj V → Bool
  | .strObj _ => true
  | .qstrObj _ => true
  | _ => false

/-- Engine model: `mp_obj_str_get_str` — returns the stored data buffer
(the engine `NUL`-terminates it after `len` bytes); raises (here: `none`)
on a non-string handle. -/
def mp_obj_str_get_str : MpObj V → Option (List Nat)
  | .strObj s => some s
  | .qstrObj s => some s
  | _ => none

/-- Engine model: `mp_obj_is_qstr` — true only on interned symbols. -/
def mp_obj_is_qstr : MpObj V → Bool
  | .qstrObj _ => true
  | _ => false

end Engine

section ScalarRules
variable {V : Type}

/-! ### `HIPyType` built-in scalar rules (header lines 174–238) -/

namespace HIPyTypeInt
/-- `HIPyType<TType>` for integral `TType` (by value), line 188. -/
def Is (h : MpObj V) : Bool := mp_obj_is_int h
def From (h : MpObj V) : Option Int := mp_obj_get_int h
def To (n : Int) : MpObj V := mp_obj_new_int n
end HIPyTypeInt

namespace HIPyTypeIntPtr
/-- `HIPyType<TType*>` for integral `TType`, line 174: `To` dereferences. -/
def Is (h : MpObj V) : Bool := mp_obj_is_int h
def From (h : MpObj V) : Option Int := mp_obj_get_int h
def To (heap : Addr → Int) (value : Addr) : MpObj V := mp_obj_new_int (heap value)
end HIPyTypeIntPtr

namespace HIPyTypeIntRef
/-- `HIPyType<TType&>` for integral `TType`, line 181: the reference
argument is the address of its referent. -/
def Is (h : MpObj V) : Bool := mp_obj_is_int h
def From (h : MpObj V) : Option Int := mp_obj_get_int h
def To (heap : Addr → Int) (value : Addr) : MpObj V := mp_obj_new_int (heap value)
end HIPyTypeIntRef

namespace HIPyTypeFloat
/-- `HIPyType<TType>` for floating-point `TType` (by value), line 210. -/
def Is (h : MpObj V) : Bool := mp_obj_is_float h
def From (h : MpObj V) : Option MpFloat := mp_obj_get_float h
def To (x : MpFloat) : MpObj V := mp_obj_new_float x
end HIPyTypeFloat

namespace HIPyTypeFloatPtr
/-- `HIPyType<TType*>` for floating-point `TType`, line 196. -/
def Is (h : MpObj V) : Bool := mp_obj_is_float h
def From (h : MpObj V) : Option MpFloat := mp_obj_get_float h
def To (heap : Addr → MpFloat) (value : Addr) : MpObj V := mp_obj_new_float (heap value)
end HIPyTypeFloatPtr

namespace HIPyTypeFloatRef
/-- `HIPyType<TType&>` for floating-point `TType`, line 203. -/
def Is (h : MpObj V) : Bool := mp_obj_is_float h
def From (h : MpObj V) : Option MpFloat := mp_obj_get_float h
def To (heap : Addr → MpFloat) (value : Addr) : MpObj V := mp_obj_new_float (heap value)
end HIPyTypeFloatRef

namespace HIPyTypeBool
/-- `HIPyType<bool>`, line 232: `From` is the engine truthiness test. -/
def Is (h : MpObj V) : Bool := mp_obj_is_bool h
def From (h : MpObj V) : Bool := mp_obj_is_true h
def To (b : Bool) : MpObj V := mp_obj_new_bool b
end HIPyTypeBool

namespace HIPyTypeBoolPtr
/-- `HIPyType<bool*>`, line 218: `From` still returns `bool` by value. -/
def Is (h : MpObj V) : Bool := mp_obj_is_bool h
def From (h : MpObj V) : Bool := mp_obj_is_true h
def To (heap : Addr → Bool) (value : Addr) : MpObj V := mp_obj_new_bool (heap value)
end HIPyTypeBoolPtr

namespace HIPyTypeBoolRef
/-- `HIPyType<bool&>`, line 225. -/
def Is (h : MpObj V) : Bool := mp_obj_is_bool h
def From (h : MpObj V) : Bool := mp_obj_is_true h
def To (heap : Addr → Bool) (value : Addr) : MpObj V := mp_obj_new_bool (heap value)
end HIPyTypeBoolRef

end ScalarRules

section StringRules
variable {V : Type}

/-! ### `HIPyType` string rules (header lines 240–277) -/

namespace HIPyTypeCharPtr
/-- `HIPyType<char*>` / `HIPyType<const char*>`, lines 240–254.
`To` passes `(value, strlen(value))`, so only the bytes before the first
`NUL` are handed to the engine; `From` returns the engine's `const char*`,
whose observable content as a C string is `cstr` of the stored bytes. -/
def Is (h : MpObj V) : Bool := mp_obj_is_str h
def From (h : MpObj V) : Option (List Nat) := (mp_obj_str_get_str h).map cstr
def To (value : List Nat) : MpObj V := mp_obj_new_str value (cstr value).length
end HIPyTypeCharPtr

namespace HIPyTypeStdString
/-- `HIPyType<std::string>`, lines 257–263.  `To` passes
`(value.c_str(), value.size())` — the full buffer, embedded `NUL` bytes
included; `From` builds `std::string(mp_obj_str_get_str(value))`, and the
`const char*` constructor of `std::string` stops at the first `NUL`. -/
def Is (h : MpObj V) : Bool := mp_obj_is_str h
def From (h : MpObj V) : Option (List Nat) := (mp_obj_str_get_str h).map cstr
def To (value : List Nat) : MpObj V := mp_obj_new_str value value.length
end HIPyTypeStdString

end StringRules

section OpaqueRules
variable {V : Type}

/-! ### `HIPyType` opaque-wrapped rule (header lines 109–172)

An opaque registration (`HIPyTypeMap` entry) fixes, at compile time, the
wrapper class `PyWrapper`, hence the descriptor `&PyWrapper::PyType`
(modelled by the number `tid`), whether `PyWrapper::Type` is a pointer
(`storesPtr`), and whether a `HIPythonObjectAllocator` specialization is
registered and which fresh storage its `Alloc()` yields (`allocResult`;
`none` models a missing registration, which the header turns into a
`static_assert` build failure on the branch that needs it). -/

structure OpaqueTy where
  tid : Nat
  storesPtr : Bool
  allocResult : Option Addr

/-- The native argument `TType value` of `To`, classified the way the
header's `if constexpr` chain classifies `TType`: a pointer argument (its
target address), a reference argument (its referent's address), or a
by-value temporary. -/
inductive NativeArg (V : Type) where
  | ptrArg (a : Addr)
  | refArg (a : Addr)
  | valArg (v : V)

/-- `HIPyType<TType, opaque>::Is`, line 114: `mp_obj_is_type(value,
&PyWrapper::PyType)` — a descriptor-identity check. -/
def opaqueIs (T : OpaqueTy) : MpObj V → Bool
  | .wrapperObj tid _ => tid = T.tid
  | _ => false

/-- `HIPyType<TType, opaque>::To`, lines 141–168, producing the content of
the fresh wrapper's `Value` slot:

* `TType` pointer: alias it into pointer storage, else dereference-copy;
* `TType` reference: store its address into pointer storage, else copy;
* `TType` value into pointer storage: `Value = Alloc()` — alias the
  allocator's result (`none` when no allocator is registered, modelling the
  `static_assert` build failure);
* `TType` value into value storage: direct copy (the final `else`). -/
def opaqueToStorage (T : OpaqueTy) (heap : Addr → V) :
    NativeArg V → Option (WStorage V)
  | .ptrArg a => if T.storesPtr then some (.ptrStore a) else some (.valStore (heap a))
  | .refArg a => if T.storesPtr then some (.ptrStore a) else some (.valStore (heap a))
  | .valArg v =>
      if T.storesPtr then T.allocResult.map .ptrStore
      else some (.valStore v)

/-- `HIPyType<TType, opaque>::To`, whole function: `mp_obj_malloc(PyWrapper,
&PyWrapper::PyType)` makes the handle carry the registration's descriptor,
and the storage slot is filled per `opaqueToStorage`. -/
def opaqueTo (T : OpaqueTy) (heap : Addr → V) (arg : NativeArg V) :
    Option (MpObj V) :=
  (opaqueToStorage T heap arg).map (.wrapperObj T.tid)

/-- Result of the pointer-form `From` (header line 118): either the C++
null pointer, the stored pointer returned as-is (`return self->Value`), or
a pointer into the wrapper's own value slot (`return &self->Value`, the
slot currently holding `v`). -/
inductive OpaquePtrResult (V : Type) where
  | null
  | heapPtr (a : Addr)
  | slotPtr (v : V)
deriving DecidableEq

/-- `HIPyType<TType, opaque>::From` for pointer-form `TType`, lines
118–127: check `Is`, then return the stored pointer or the address of the
stored value; on mismatch return `nullptr`. -/
def opaqueFromPtr (T : OpaqueTy) : MpObj V → OpaquePtrResult V
  | .wrapperObj tid st =>
      if tid = T.tid then
        match st with
        | .ptrStore a => .heapPtr a
        | .valStore v => .slotPtr v
      else .null
  | _ => .null

/-- `HIPyType<TType, opaque>::From` for value- and reference-form `TType`,
lines 128–138 (`auto` return deduction strips the reference, so both forms
return `CleanBaseType<TType>` by value): check `Is`, then dereference-copy
the stored pointer or copy the stored value; on mismatch return the static
`CleanBaseType<TType> nullValue{}` — a zero-initialized value. -/
def opaqueFromVal [Zero V] (T : OpaqueTy) (heap : Addr → V) : MpObj V → V
  | .wrapperObj tid st =>
      if tid = T.tid then
        match st with
        | .ptrStore a => heap a
        | .valStore v => v
      else 0
  | _ => 0

end OpaqueRules

section KeywordLookup
variable {V : Type}

/-! ### `FindInMap` (header lines 16–34) -/

/-- One `mp_map_elem_t` of the `mp_map_t` argument table. -/
structure MpMapElem (V : Type) where
  key : MpObj V
  value : MpObj V

/-- `FindInMap(kwargs, name, value)`, lines 16–34: scan the table in order;
for each element whose key is an interned symbol, compare its text with
`name` via `strcmp`; on the first match set the out-parameter and return
`true`; otherwise return `false` with the out-parameter untouched.  The
bool/out-parameter pair is rendered as an `Option`. -/
def FindInMap (kwargs : List (MpMapElem V)) (name : List Nat) :
    Option (MpObj V) :=
  match kwargs with
  | [] => none
  | elem :: rest =>
      match elem.key with
      | .qstrObj argName =>
          if cstr argName = cstr name then some elem.value
          else FindInMap rest name
      | _ => FindInMap rest name

/-- Spec-side matching predicate for one table entry (spec §4.4): the entry
is name-comparable only when its key is an interned-symbol form, and then
matches when its text equals the requested name. -/
def specKeyMatches (name : List Nat) (e : MpMapElem V) : Bool :=
  match e.key with
  | .qstrObj s => cstr s = cstr name
  | _ => false

end KeywordLookup

section SubscriptBridge
variable {V : Type}

/-! ### `Subscript` (header lines 302–308)

The header's `Subscript` as written does not implement the spec: it calls
`HIPyType<TSubscript>::To(subscript_obj)` — the native-to-handle direction —
on the incoming script handle (where the handle-to-native `From` is needed
to obtain a container key), and declares the value parameter with the
native type `TData` while comparing it against the handle constant
`MP_OBJ_SENTINEL`.  For the intended instantiations (native key and element
types) those expressions are ill-typed C++, so the function as written is
not representable in the embedding.  The definition below is therefore the
spec's version, used to state what the claim expects of the fixed code. -/

/-- Modelled from the spec: §4.5 `SubscriptBridge` — the body of
`Subscript(self, subscriptHandle, valueOrSentinel)` with the subscript and
value conversions in the `From` direction, which the header's `Subscript`
(line 305) gets wrong by calling `To` on the subscript handle.  The wrapped
container is instantiated at a total map `Int → Int` (integer keys and
elements, conversions via the integral `HIPyType` rule); the returned pair
is (result handle, container after the call), `none` a raised conversion
error. -/
def SubscriptSpec (self : Int → Int) (subscript_obj : MpObj V)
    (value : MpObj V) : Option (MpObj V × (Int → Int)) :=
  match HIPyTypeInt.From subscript_obj with
  | none => none
  | some subscript =>
      match value with
      | .sentinel => some (HIPyTypeInt.To (self subscript), self)
      | _ =>
          match HIPyTypeInt.From value with
          | none => none
          | some v => some (.noneObj, fun i => if i = subscript then v else self i)

end SubscriptBridge

/-! ## Helper lemmas -/

theorem cstr_eq_self {s : List Nat} (hs : 0 ∉ s) : cstr s = s := by
  induction s with
  | nil => rfl
  | cons a t ih =>
      have ha : a ≠ 0 := fun e => hs (e ▸ List.mem_cons_self a t)
      have ht : 0 ∉ t := fun m => hs (List.mem_cons_of_mem a m)
      simp [cstr, List.takeWhile_cons, ha]
      intro x hx
      exact fun e => ht (e ▸ hx)

/-! ## Claims -/

/-- C1: for every opaque native type, `To(value)` fills the fresh wrapper's
storage per the five-cell ownership table: a pointer-form input is aliased
into pointer storage and dereferenced-and-copied into value storage; a
reference-form input has its address taken into pointer storage and is
copied into value storage; a value-form temporary into pointer storage
aliases the registered allocator's result (build failure, modelled `none`,
when no allocator is registered), and into value storage is copied
directly.  The handle always carries the registration's descriptor. -/
theorem opaqueTo_ownership_table {V : Type} (tid : Nat) (alloc : Option Addr)
    (heap : Addr → V) (a : Addr) (v : V) :
    opaqueTo ⟨tid, true, alloc⟩ heap (.ptrArg a)
        = some (.wrapperObj tid (.ptrStore a)) ∧
    opaqueTo ⟨tid, false, alloc⟩ heap (.ptrArg a)
        = some (.wrapperObj tid (.valStore (heap a))) ∧
    opaqueTo ⟨tid, true, alloc⟩ heap (.refArg a)
        = some (.wrapperObj tid (.ptrStore a)) ∧
    opaqueTo ⟨tid, false, alloc⟩ heap (.refArg a)
        = some (.wrapperObj tid (.valStore (heap a))) ∧
    opaqueTo ⟨tid, true, alloc⟩ heap (.valArg v)
        = alloc.map (fun r => .wrapperObj tid (.ptrStore r)) ∧
    opaqueTo ⟨tid, true, none⟩ heap (.valArg v) = none ∧
    opaqueTo ⟨tid, false, alloc⟩ heap (.valArg v)
        = some (.wrapperObj tid (.valStore v)) := by
  refine ⟨rfl, rfl, rfl, rfl, ?_, rfl, rfl⟩
  cases alloc <;> rfl

/-- C2: for every opaque type, `From(handle)` checks `Is(handle)` first and
on mismatch returns the documented default: the zero-initialized static
`nullValue{}` for the value/reference forms, `nullptr` for the pointer
form; both functions are total, so no fault is possible. -/
theorem opaqueFrom_mismatch_default {V : Type} [Zero V] (T : OpaqueTy)
    (heap : Addr → V) (h : MpObj V) (hmis : opaqueIs T h = false) :
    opaqueFromVal T heap h = 0 ∧ opaqueFromPtr T h = .null := by
  cases h with
  | wrapperObj tid st =>
      simp only [opaqueIs, decide_eq_false_iff_not] at hmis
      simp [opaqueFromVal, opaqueFromPtr, hmis]
  | intObj n => exact ⟨rfl, rfl⟩
  | floatObj x => exact ⟨rfl, rfl⟩
  | boolObj b => exact ⟨rfl, rfl⟩
  | strObj s => exact ⟨rfl, rfl⟩
  | qstrObj s => exact ⟨rfl, rfl⟩
  | noneObj => exact ⟨rfl, rfl⟩
  | sentinel => exact ⟨rfl, rfl⟩

theorem opaqueFrom_mismatch_default_witness :
    opaqueIs (V := Int) ⟨0, true, none⟩ (.wrapperObj 1 (.valStore 7)) = false ∧
    (opaqueFromVal ⟨0, true, none⟩ (fun _ => (0 : Int))
        (.wrapperObj 1 (.valStore 7)) = 0 ∧
     opaqueFromPtr (V := Int) ⟨0, true, none⟩
        (.wrapperObj 1 (.valStore 7)) = .null) :=
  ⟨rfl, opaqueFrom_mismatch_default ⟨0, true, none⟩ (fun _ => (0 : Int))
      (.wrapperObj 1 (.valStore 7)) rfl⟩

/-- C3: for the registered integral, floating-point and bool rules,
`From(To(v)) = v` for every value `v` (the fallible extractors succeed on
the handle `To` just built and return the boxed payload unchanged). -/
theorem scalar_roundtrip {V : Type} (n : Int) (x : MpFloat) (b : Bool) :
    HIPyTypeInt.From (V := V) (HIPyTypeInt.To n) = some n ∧
    HIPyTypeFloat.From (V := V) (HIPyTypeFloat.To x) = some x ∧
    HIPyTypeBool.From (V := V) (HIPyTypeBool.To b) = b :=
  ⟨rfl, rfl, rfl⟩

/-- C4: the set-then-get contract of the spec's `SubscriptBridge`: a set of
`(key, value)` answers the `none` handle and a following get of the same
key answers `value`.  (The header's own `Subscript` does not realize this:
it converts the subscript handle with `To` instead of `From`; see
`SubscriptSpec`.) -/
theorem subscriptSpec_set_then_get {V : Type} (self : Int → Int) (k v : Int) :
    ∃ updated : Int → Int,
      SubscriptSpec (V := V) self (.intObj k) (.intObj v)
          = some (.noneObj, updated) ∧
      SubscriptSpec (V := V) updated (.intObj k) .sentinel
          = some (.intObj v, updated) ∧
      updated k = v := by
  refine ⟨fun i => if i = k then v else self i, rfl, ?_, by simp⟩
  simp [SubscriptSpec, HIPyTypeInt.From, HIPyTypeInt.To, mp_obj_get_int,
    mp_obj_new_int]

/-- C5: `FindInMap` returns the value of the first entry, in table order,
whose key is an interned symbol with matching text (entries with non-symbol
keys are skipped), and returns absence exactly when no entry matches. -/
theorem findInMap_first_symbol_match {V : Type} (kwargs : List (MpMapElem V))
    (name : List Nat) :
    FindInMap kwargs name
        = (kwargs.find? (specKeyMatches name)).map MpMapElem.value ∧
    (FindInMap kwargs name = none
        ↔ ∀ e ∈ kwargs, specKeyMatches name e = false) := by
  have main : FindInMap kwargs name
      = (kwargs.find? (specKeyMatches name)).map MpMapElem.value := by
    induction kwargs with
    | nil => rfl
    | cons elem rest ih =>
        rw [FindInMap, List.find?_cons]
        cases hk : elem.key <;> simp [specKeyMatches, hk, ih]
        rename_i argName
        by_cases hc : cstr argName = cstr name <;> simp [hc, ih]
  refine ⟨main, ?_⟩
  rw [main]
  simp [List.find?_eq_none]

/-- C8 counterexample: the `std::string` round trip truncates at an
embedded `NUL`: for the content `"a\0b"` it returns `"a"`, not the original
three bytes. -/
theorem stdString_roundtrip_embedded_nul_counterexample :
    HIPyTypeStdString.From (V := Unit)
        (HIPyTypeStdString.To [97, 0, 98]) ≠ some [97, 0, 98] := by
  decide

/-- C8 (amended): the string round trip `From(To(s))` preserves exact
content and length for every string `s` free of embedded `NUL` bytes, for
both the `std::string` and the `char*` rules; embedded `NUL` bytes are
unsupported because `From` reads the stored buffer through C-string
construction. -/
theorem string_roundtrip_nul_free {V : Type} (s : List Nat) (hs : 0 ∉ s) :
    HIPyTypeStdString.From (V := V) (HIPyTypeStdString.To s) = some s ∧
    HIPyTypeCharPtr.From (V := V) (HIPyTypeCharPtr.To s) = some s := by
  have hc : cstr s = s := cstr_eq_self hs
  constructor
  · simp [HIPyTypeStdString.From, HIPyTypeStdString.To, mp_obj_new_str,
      mp_obj_str_get_str, List.take_length, hc]
  · simp [HIPyTypeCharPtr.From, HIPyTypeCharPtr.To, mp_obj_new_str,
      mp_obj_str_get_str, hc, List.take_length]

theorem string_roundtrip_nul_free_witness :
    (0 : Nat) ∉ [104, 105] ∧
    (HIPyTypeStdString.From (V := Unit)
        (HIPyTypeStdString.To [104, 105]) = some [104, 105] ∧
     HIPyTypeCharPtr.From (V := Unit)
        (HIPyTypeCharPtr.To [104, 105]) = some [104, 105]) :=
  ⟨by decide, string_roundtrip_nul_free [104, 105] (by decide)⟩

/-- C9: the bool rule's `From` is the engine truthiness test in all three
storage forms (`bool`, `bool*`, `bool&`): total over every handle, never a
default or an error — e.g. the non-boolean handles `2`, `None` and the
empty string yield their truth values `true`, `false`, `false`. -/
theorem boolFrom_truthiness {V : Type} (h : MpObj V) :
    HIPyTypeBool.From h = mp_obj_is_true h ∧
    HIPyTypeBoolPtr.From h = mp_obj_is_true h ∧
    HIPyTypeBoolRef.From h = mp_obj_is_true h ∧
    HIPyTypeBool.From (MpObj.intObj 2 : MpObj V) = true ∧
    HIPyTypeBool.From (MpObj.noneObj : MpObj V) = false ∧
    HIPyTypeBool.From (MpObj.strObj [] : MpObj V) = false :=
  ⟨rfl, rfl, rfl, rfl, rfl, rfl⟩

/-- C10: for the integral and floating-point rules, the pointer- and
reference-form `From` are the same handle-to-scalar extraction as the
by-value `From` (the scalar is returned by value), and the three storage
forms differ only in `To`, which dereferences the pointer/reference
argument before boxing. -/
theorem scalar_ptr_ref_from_agree {V : Type} (h : MpObj V)
    (heap : Addr → Int) (fheap : Addr → MpFloat) (a : Addr) :
    HIPyTypeIntPtr.From (V := V) h = HIPyTypeInt.From h ∧
    HIPyTypeIntRef.From (V := V) h = HIPyTypeInt.From h ∧
    HIPyTypeFloatPtr.From (V := V) h = HIPyTypeFloat.From h ∧
    HIPyTypeFloatRef.From (V := V) h = HIPyTypeFloat.From h ∧
    HIPyTypeIntPtr.To (V := V) heap a = HIPyTypeInt.To (heap a) ∧
    HIPyTypeIntRef.To (V := V) heap a = HIPyTypeInt.To (heap a) ∧
    HIPyTypeFloatPtr.To (V := V) fheap a = HIPyTypeFloat.To (fheap a) ∧
    HIPyTypeFloatRef.To (V := V) fheap a = HIPyTypeFloat.To (fheap a) :=
  ⟨rfl, rfl, rfl, rfl, rfl, rfl, rfl, rfl⟩

/-- C6: a handle produced by an opaque type's `To` always carries that
type's exact descriptor: `Is` of the producing type accepts it and `Is` of
any opaque type with a different descriptor rejects it. -/
theorem opaque_is_to {V : Type} (T T' : OpaqueTy) (heap : Addr → V)
    (arg : NativeArg V) (h : MpObj V) (hto : opaqueTo T heap arg = some h) :
    opaqueIs T h = true ∧ (T'.tid ≠ T.tid → opaqueIs T' h = false) := by
  cases hst : opaqueToStorage T heap arg with
  | none => rw [opaqueTo, hst] at hto; cases hto
  | some st =>
      rw [opaqueTo, hst, Option.map_some'] at hto
      cases hto
      refine ⟨by simp [opaqueIs], fun hne => ?_⟩
      simp only [opaqueIs, decide_eq_false_iff_not]
      exact fun e => hne e.symm

theorem opaque_is_to_witness :
    opaqueTo (V := Int) ⟨0, true, some 3⟩ (fun _ => 0) (.ptrArg 2)
        = some (.wrapperObj 0 (.ptrStore 2)) ∧
    (opaqueIs (V := Int) ⟨0, true, some 3⟩ (.wrapperObj 0 (.ptrStore 2)) = true ∧
     opaqueIs (V := Int) ⟨1, false, none⟩ (.wrapperObj 0 (.ptrStore 2)) = false) :=
  ⟨rfl,
   (opaque_is_to ⟨0, true, some 3⟩ ⟨1, false, none⟩ (fun _ => 0)
      (.ptrArg 2) (.wrapperObj 0 (.ptrStore 2)) rfl).1,
   (opaque_is_to ⟨0, true, some 3⟩ ⟨1, false, none⟩ (fun _ => 0)
      (.ptrArg 2) (.wrapperObj 0 (.ptrStore 2)) rfl).2 (by decide)⟩

end HelMicroPython
